import Mathlib

/-!
Verification of the authentication/authorization slice of the
PsychologistsAgregator backend: credential validation, login token
issuance, registration, the role-based authorization gate, the JWT
strategy startup precondition, registration-input validation, and the
local login strategy's error collapsing.

The implementations of AuthService, RolesGuard, JwtStrategy and
RegisterDto are not part of the source tree (only their test suites
are), so those operations are modelled from the specification, guided
by the behaviour the in-repo test suites pin down.  LocalStrategy's
implementation is present in the source and is embedded directly.
-/

namespace PsychAgg

/-- Role values of the enumerated role set.  Modelled from the spec:
the source enum `Role` (src/enums/userRoles.enum) is missing; the spec
names the two roles Standard User and Administrator and its login
scenario shows the standard-user value as the lowercase string
"user".  Roles travel as strings in tokens and requests, so roles are
embedded as strings with two canonical constants. -/
def Role.user : String := "user"

/-- The canonical Administrator role value.  Modelled from the spec:
the role is named Administrator, role values are the lowercase role
name (as the login scenario shows for "user"), and the case-
sensitivity test compares it against the all-uppercase ADMINISTRATOR,
so the canonical value is its lowercase case variant. -/
def Role.administrator : String := "administrator"

/-- A persisted account record (the `User` entity), as the tests
construct it: id, unique email, password hash, display name, optional
phone, role, creation timestamp. -/
structure User where
  id : Nat
  email : String
  password_hash : String
  full_name : String
  phone : Option String
  role : String
  created_at : Nat
  deriving DecidableEq, Repr

/-- The user-visible error taxonomy of the slice relevant to the
claims: Unauthorized and BadRequest. -/
inductive HttpError where
  | unauthorized
  | badRequest
  deriving DecidableEq, Repr

/-- Modelled from the spec: `AuthService.validateUser` (the service
source is missing; only its test suite is in the tree).  Looks up the
account by email via the store; fails with Unauthorized if absent;
compares the submitted plaintext against the stored hash via the
password verifier; fails with Unauthorized on mismatch; returns the
stored account on success.  The store lookup and the bcrypt comparison
are passed in as functions, as they are injected dependencies. -/
def validateUser (findByEmail : String → Option User)
    (bcryptCompare : String → String → Bool)
    (email password : String) : Except HttpError User :=
  match findByEmail email with
  | none => .error .unauthorized
  | some user =>
      if bcryptCompare password user.password_hash then .ok user
      else .error .unauthorized

/-- The claims payload signed into a login token. -/
structure JwtClaims where
  sub : Nat
  email : String
  role : String
  deriving DecidableEq, Repr

/-- The response body of a successful login. -/
structure LoginResponse where
  access_token : String
  deriving DecidableEq, Repr

/-- Modelled from the spec: the claims `AuthService.login` builds for
an account — subject id, email and role of that account. -/
def loginClaims (user : User) : JwtClaims :=
  { sub := user.id, email := user.email, role := user.role }

/-- Modelled from the spec: `AuthService.login` (source missing).
Signs the account claims with the injected token issuer and wraps the
resulting token as the access_token of the response. -/
def login (signToken : JwtClaims → String) (user : User) : LoginResponse :=
  { access_token := signToken (loginClaims user) }

/-- The registration request body: email, plaintext password, display
name, optional phone. -/
structure RegisterRequest where
  email : String
  password : String
  full_name : String
  phone : Option String
  deriving DecidableEq, Repr

/-- The record handed to the store's create operation by register. -/
structure NewUserRecord where
  email : String
  password_hash : String
  full_name : String
  phone : Option String
  role : String
  deriving DecidableEq, Repr

/-- Modelled from the spec: `AuthService.register` (source missing).
Fails with BadRequest if an account with the email already exists;
otherwise hashes the password and creates a new account with role
defaulted to Standard User.  The second component of the result is the
trace of records passed to the store's create operation, so that "the
create operation is never invoked" is expressible as an empty trace. -/
def register (findByEmail : String → Option User)
    (bcryptHash : String → String) (create : NewUserRecord → User)
    (dto : RegisterRequest) : Except HttpError User × List NewUserRecord :=
  match findByEmail dto.email with
  | some _ => (.error .badRequest, [])
  | none =>
      let record : NewUserRecord :=
        { email := dto.email
          password_hash := bcryptHash dto.password
          full_name := dto.full_name
          phone := dto.phone
          role := Role.user }
      (.ok (create record), [record])

/-- The decoded token payload attached to a request, as the guard sees
it.  The role field is optional because a payload object may lack the
role property (the RolesGuard tests exercise exactly that shape). -/
structure RequestUser where
  sub : Nat
  email : String
  role : Option String
  deriving DecidableEq, Repr

/-- Modelled from the spec: `RolesGuard.canActivate` (the guard source
is missing; only its test suite is in the tree).  Reads the declared
required-role list from route metadata (`none` models both undefined
and null metadata); returns true when no roles are required or the
list is empty; otherwise reads the request's user payload and tests
whether its role is a member of the required list by exact equality.
Accessing the role property of an absent (undefined/null) user object
is a thrown TypeError, modelled as the error branch; a present user
object whose role property is absent compares unequal to every
required role and yields false. -/
def canActivate (requiredRoles : Option (List String))
    (user : Option RequestUser) : Except String Bool :=
  match requiredRoles with
  | none => .ok true
  | some roles =>
      if roles.isEmpty then .ok true
      else
        match user with
        | none => .error "TypeError: cannot read property role of undefined"
        | some u => .ok (roles.any (fun r => u.role == some r))

/-- Lowercases an ASCII letter, the case folding relevant to role
strings: used only to state that two role values differ in case
alone. -/
def lowerChar (c : Char) : Char :=
  if 65 ≤ c.toNat ∧ c.toNat ≤ 90 then Char.ofNat (c.toNat + 32) else c

/-- Case-insensitive equality of role strings: equality of their
ASCII lowercasings.  Two strings that agree under this test but not
under exact equality differ in case alone. -/
def roleEqCaseInsensitive (a b : String) : Bool :=
  a.toList.map lowerChar == b.toList.map lowerChar

/-- Modelled from the spec: the `JwtStrategy` constructor (source
missing).  Reads JWT_SECRET from configuration; throws the startup
error if the secret is absent or the empty string (a falsy check);
otherwise construction succeeds with the secret installed. -/
def JwtStrategy.construct (getConfig : String → Option String) :
    Except String String :=
  match getConfig "JWT_SECRET" with
  | none => .error "JWT_SECRET is undefined"
  | some secret =>
      if secret = "" then .error "JWT_SECRET is undefined"
      else .ok secret

/-- A JavaScript value assigned to a DTO field in the validation
tests: a string, a number, or left undefined. -/
inductive JsValue where
  | str (s : String)
  | num (n : Int)
  | undef
  deriving DecidableEq, Repr

/-- A field-validation failure: the offending property and the name of
the violated constraint. -/
structure FieldError where
  property : String
  constraint : String
  deriving DecidableEq, Repr

/-- Splits a character list at every occurrence of the separator. -/
def splitOnChar (c : Char) : List Char → List (List Char)
  | [] => [[]]
  | x :: xs =>
      match splitOnChar c xs with
      | [] => if x = c then [[], []] else [[x]]
      | y :: ys => if x = c then [] :: y :: ys else (x :: y) :: ys

/-- Modelled from the spec: a well-formed email, the isEmail
constraint on the registration email field (the RegisterDto source is
missing).  One at-sign splitting a non-empty local part from a
non-empty domain that contains a dot neither at its start nor at its
end. -/
def isEmailStr (s : String) : Bool :=
  match splitOnChar '@' s.toList with
  | [localPart, domain] =>
      !localPart.isEmpty && !domain.isEmpty && domain.contains '.' &&
        !(domain.head? == some '.') && !(domain.getLast? == some '.')
  | _ => false

/-- The registration request body as submitted, before validation:
each field is a JavaScript value that may be of the wrong type or
absent. -/
structure RegisterDtoInput where
  email : JsValue
  full_name : JsValue
  password : JsValue
  phone : JsValue
  deriving DecidableEq, Repr

/-- Modelled from the spec: the isEmail constraint on the email
field — a failure unless the value is a well-formed email string. -/
def emailErrors (v : JsValue) : List FieldError :=
  match v with
  | .str s => if isEmailStr s then [] else [⟨"email", "isEmail"⟩]
  | _ => [⟨"email", "isEmail"⟩]

/-- Modelled from the spec: the isString constraint on the full name
field — a failure unless the value is a string. -/
def fullNameErrors (v : JsValue) : List FieldError :=
  match v with
  | .str _ => []
  | _ => [⟨"full_name", "isString"⟩]

/-- Modelled from the spec: the minLength constraint on the password
field — a failure unless the value is a string of length at least 6
(an absent password also violates minLength). -/
def passwordErrors (v : JsValue) : List FieldError :=
  match v with
  | .str s => if 6 ≤ s.length then [] else [⟨"password", "minLength"⟩]
  | _ => [⟨"password", "minLength"⟩]

/-- Modelled from the spec: the optional isString constraint on the
phone field — no failure when absent, a failure when present but not
a string. -/
def phoneErrors (v : JsValue) : List FieldError :=
  match v with
  | .str _ => []
  | .undef => []
  | _ => [⟨"phone", "isString"⟩]

/-- Modelled from the spec: validation of the registration input (the
RegisterDto source with its validation decorators is missing).  Email
must be a well-formed email (isEmail); full name must be a string
(isString); password must be a string of length at least 6
(minLength); phone is optional but must be a string when present
(isString).  Returns the list of field-validation failures, empty
exactly when the input is accepted. -/
def validateRegisterDto (dto : RegisterDtoInput) : List FieldError :=
  emailErrors dto.email ++ fullNameErrors dto.full_name ++
    passwordErrors dto.password ++ phoneErrors dto.phone

/-- The error thrown by the local login strategy. -/
inductive StrategyError where
  | unauthorizedException (msg : String)
  deriving DecidableEq, Repr

/-- `LocalStrategy.validate`, embedded from the source
(src/strategies/local.strategy.spec.ts, implementation section):
awaits the auth service's validateUser and returns its user; any
error raised by that call, of any kind ε, is caught and replaced by
UnauthorizedException with the literal message of the source. -/
def LocalStrategy.validate {ε : Type}
    (authValidateUser : String → String → Except ε User)
    (email password : String) : Except StrategyError User :=
  match authValidateUser email password with
  | .ok user => .ok user
  | .error _ => .error (.unauthorizedException "Invalid credientials")

/-- A concrete account used to instantiate theorems with hypotheses. -/
def sampleUser : User :=
  { id := 1, email := "test@example.com", password_hash := "$2b$10$hashedpassword",
    full_name := "Test User", phone := some "+1234567890", role := Role.user,
    created_at := 0 }

/-- Whether a validation result contains a failure on the given
property. -/
def hasErrorOn (errs : List FieldError) (prop : String) : Bool :=
  errs.any (fun e => e.property == prop)

/-- C1: credential validation fails with the same Unauthorized error
whether the email has no account or the account exists and the hash
comparison fails — the two failing runs are indistinguishable to the
caller — and on success it returns the stored account. -/
theorem validateUser_unauthorized_indistinguishable
    (find₁ find₂ : String → Option User) (cmp₁ cmp₂ : String → String → Bool)
    (e₁ p₁ e₂ p₂ : String) (u : User)
    (h₁ : find₁ e₁ = none)
    (h₂ : find₂ e₂ = some u)
    (h₃ : cmp₂ p₂ u.password_hash = false) :
    validateUser find₁ cmp₁ e₁ p₁ = .error .unauthorized ∧
    validateUser find₂ cmp₂ e₂ p₂ = .error .unauthorized ∧
    validateUser find₁ cmp₁ e₁ p₁ = validateUser find₂ cmp₂ e₂ p₂ ∧
    (∀ (find : String → Option User) (cmp : String → String → Bool)
        (e p : String) (w : User), find e = some w →
        cmp p w.password_hash = true → validateUser find cmp e p = .ok w) := by
  refine ⟨?_, ?_, ?_, ?_⟩
  · simp [validateUser, h₁]
  · simp [validateUser, h₂, h₃]
  · simp [validateUser, h₁, h₂, h₃]
  · intro find cmp e p w hw hc
    simp [validateUser, hw, hc]

/-- C1 witness: the theorem instantiated at a store with no account
for one run and a store whose comparison rejects for the other. -/
theorem validateUser_unauthorized_indistinguishable_witness :
    validateUser (fun _ => none) (fun _ _ => true) "a@x.com" "pw1" =
      .error .unauthorized ∧
    validateUser (fun _ => some sampleUser) (fun _ _ => false) "b@x.com" "pw2" =
      .error .unauthorized :=
  ⟨(validateUser_unauthorized_indistinguishable (fun _ => none)
      (fun _ => some sampleUser) (fun _ _ => true) (fun _ _ => false)
      "a@x.com" "pw1" "b@x.com" "pw2" sampleUser rfl rfl rfl).1,
   (validateUser_unauthorized_indistinguishable (fun _ => none)
      (fun _ => some sampleUser) (fun _ _ => true) (fun _ _ => false)
      "a@x.com" "pw1" "b@x.com" "pw2" sampleUser rfl rfl rfl).2.1⟩

/-- C2: the gate returns true when required roles are unspecified
(undefined or null metadata) or the empty list; with a non-empty
required list it returns true exactly when the actual role is a
member; and the three concrete examples of the spec hold. -/
theorem canActivate_membership (roles : List String) (u : RequestUser)
    (hne : roles ≠ []) :
    (∀ v, canActivate none v = .ok true) ∧
    (∀ v, canActivate (some []) v = .ok true) ∧
    (canActivate (some roles) (some u) = .ok true ↔
      ∃ r ∈ roles, u.role = some r) ∧
    (canActivate (some roles) (some u) = .ok false ↔
      ¬∃ r ∈ roles, u.role = some r) ∧
    canActivate (some [Role.administrator])
      (some ⟨1, "user@example.com", some Role.user⟩) = .ok false ∧
    canActivate (some [Role.administrator, Role.user])
      (some ⟨1, "user@example.com", some Role.user⟩) = .ok true := by
  have hie : roles.isEmpty = false := by
    cases roles with
    | nil => exact absurd rfl hne
    | cons a t => rfl
  refine ⟨fun v => rfl, fun v => rfl, ?_, ?_, rfl, rfl⟩
  · simp [canActivate, hie, List.any_eq_true]
  · simp [canActivate, hie, List.any_eq_false]

/-- C2 witness: the theorem instantiated at the required set
containing only Administrator and an Administrator payload. -/
theorem canActivate_membership_witness :
    canActivate (some [Role.administrator])
      (some ⟨1, "admin@example.com", some Role.administrator⟩) = .ok true :=
  ((canActivate_membership [Role.administrator]
      ⟨1, "admin@example.com", some Role.administrator⟩ (by decide)).2.2.1).mpr
    ⟨Role.administrator, by decide, rfl⟩

/-- C3: registration with an email already present fails with
BadRequest and the store's create operation is never invoked — the
trace of create calls is empty, so stored state is unchanged. -/
theorem register_duplicate_noCreate (findByEmail : String → Option User)
    (bcryptHash : String → String) (create : NewUserRecord → User)
    (dto : RegisterRequest) (u : User)
    (h : findByEmail dto.email = some u) :
    register findByEmail bcryptHash create dto = (.error .badRequest, []) := by
  simp [register, h]

/-- C3 witness: the theorem instantiated at a store already holding an
account under the requested email. -/
theorem register_duplicate_noCreate_witness :
    register (fun _ => some sampleUser) (fun p => p ++ "#h")
      (fun _ => sampleUser)
      ⟨"new@example.com", "password123", "New User", some "+1234567890"⟩ =
      (.error .badRequest, []) :=
  register_duplicate_noCreate (fun _ => some sampleUser) (fun p => p ++ "#h")
    (fun _ => sampleUser)
    ⟨"new@example.com", "password123", "New User", some "+1234567890"⟩
    sampleUser rfl

/-- C4: login signs exactly the claims sub = account id, email =
account email, role = account role, and the response carries exactly
the token produced from those claims. -/
theorem login_claims_exact (signToken : JwtClaims → String) (user : User) :
    loginClaims user =
      { sub := user.id, email := user.email, role := user.role } ∧
    login signToken user =
      { access_token :=
          signToken { sub := user.id, email := user.email, role := user.role } } :=
  ⟨rfl, rfl⟩

/-- C5: registration with a fresh email creates exactly one record:
its password field is the hash of the submitted password (never the
plaintext itself), its role is the Standard User role, and email,
full name and phone pass through unchanged. -/
theorem register_fresh_creates (findByEmail : String → Option User)
    (bcryptHash : String → String) (create : NewUserRecord → User)
    (dto : RegisterRequest) (h : findByEmail dto.email = none) :
    register findByEmail bcryptHash create dto =
      (.ok (create ⟨dto.email, bcryptHash dto.password, dto.full_name,
          dto.phone, Role.user⟩),
       [⟨dto.email, bcryptHash dto.password, dto.full_name, dto.phone,
          Role.user⟩]) := by
  simp [register, h]

/-- C5 witness: the theorem instantiated at an empty store and the
registration body of the test suite. -/
theorem register_fresh_creates_witness :
    register (fun _ => none) (fun _ => "hashedpassword")
      (fun _ => sampleUser)
      ⟨"new@example.com", "password123", "New User", some "+1234567890"⟩ =
      (.ok sampleUser,
       [⟨"new@example.com", "hashedpassword", "New User",
          some "+1234567890", Role.user⟩]) :=
  register_fresh_creates (fun _ => none) (fun _ => "hashedpassword")
    (fun _ => sampleUser)
    ⟨"new@example.com", "password123", "New User", some "+1234567890"⟩ rfl

/-- C6 counterexample: with the non-empty required set containing only
Administrator and a present request payload whose role field is
absent, the gate silently returns false — it does not throw, so the
claim that absent claims always fail loudly is false as stated. -/
theorem canActivate_missingRoleField_returnsFalse :
    canActivate (some [Role.administrator])
      (some ⟨1, "user@example.com", none⟩) = .ok false := rfl

/-- C6 amended: with a non-empty required-role set, the gate throws
(the TypeError of reading the role property of undefined) exactly when
the request's claims object itself is absent; when the claims object
is present but its role field is absent, the gate silently returns
false instead. -/
theorem canActivate_absentClaims (roles : List String) (hne : roles ≠ []) :
    canActivate (some roles) none =
      .error "TypeError: cannot read property role of undefined" ∧
    (∀ sub email,
      canActivate (some roles) (some ⟨sub, email, none⟩) = .ok false) := by
  have hie : roles.isEmpty = false := by
    cases roles with
    | nil => exact absurd rfl hne
    | cons a t => rfl
  constructor
  · simp [canActivate, hie]
  · intro sub email
    simp [canActivate, hie, List.any_eq_false]

/-- C6 witness: the amended theorem instantiated at the required set
containing only Administrator. -/
theorem canActivate_absentClaims_witness :
    canActivate (some [Role.administrator]) none =
      .error "TypeError: cannot read property role of undefined" ∧
    canActivate (some [Role.administrator])
      (some ⟨2, "norole@example.com", none⟩) = .ok false :=
  ⟨(canActivate_absentClaims [Role.administrator] (by decide)).1,
   (canActivate_absentClaims [Role.administrator] (by decide)).2
     2 "norole@example.com"⟩

/-- C7: strategy construction fails if and only if the configured
JWT_SECRET is absent or the empty string; with any non-empty secret
it succeeds and installs that secret. -/
theorem jwtStrategy_construct_startup (getConfig : String → Option String) :
    ((∃ msg, JwtStrategy.construct getConfig = .error msg) ↔
      (getConfig "JWT_SECRET" = none ∨ getConfig "JWT_SECRET" = some "")) ∧
    (∀ s, JwtStrategy.construct getConfig = .ok s ↔
      (getConfig "JWT_SECRET" = some s ∧ s ≠ "")) := by
  constructor
  · constructor
    · rintro ⟨msg, hmsg⟩
      unfold JwtStrategy.construct at hmsg
      rcases hcfg : getConfig "JWT_SECRET" with _ | s
      · exact Or.inl rfl
      · rw [hcfg] at hmsg
        by_cases hs : s = ""
        · exact Or.inr (by rw [hs])
        · simp [hs] at hmsg
    · rintro (hcfg | hcfg) <;>
        exact ⟨"JWT_SECRET is undefined", by simp [JwtStrategy.construct, hcfg]⟩
  · intro s
    constructor
    · intro hok
      unfold JwtStrategy.construct at hok
      rcases hcfg : getConfig "JWT_SECRET" with _ | t
      · rw [hcfg] at hok; exact absurd hok (by simp)
      · rw [hcfg] at hok
        by_cases ht : t = ""
        · simp [ht] at hok
        · simp [ht] at hok
          subst hok
          exact ⟨rfl, ht⟩
    · rintro ⟨hcfg, hs⟩
      simp [JwtStrategy.construct, hcfg, hs]

/-- C8: role comparison in the gate is exact and case-sensitive: the
all-uppercase ADMINISTRATOR differs from the canonical Administrator
value only in case (their ASCII lowercasings coincide while the
strings themselves differ), the gate accepts the canonical value and
rejects the uppercase case variant with false. -/
theorem canActivate_caseSensitive :
    canActivate (some [Role.administrator])
      (some ⟨1, "user@example.com", some "ADMINISTRATOR"⟩) = .ok false ∧
    canActivate (some [Role.administrator])
      (some ⟨1, "admin@example.com", some Role.administrator⟩) = .ok true ∧
    roleEqCaseInsensitive "ADMINISTRATOR" Role.administrator = true ∧
    ("ADMINISTRATOR" == Role.administrator) = false :=
  ⟨rfl, rfl, by decide, by decide⟩

lemma hasErrorOn_append (a b : List FieldError) (p : String) :
    hasErrorOn (a ++ b) p = (hasErrorOn a p || hasErrorOn b p) := by
  simp [hasErrorOn, List.any_append]

lemma hasErrorOn_emailErrors (v : JsValue) :
    hasErrorOn (emailErrors v) "email" = false ↔
      ∃ s, v = .str s ∧ isEmailStr s = true := by
  cases v with
  | str s => by_cases h : isEmailStr s <;> simp [emailErrors, h, hasErrorOn]
  | num n => simp [emailErrors, hasErrorOn]
  | undef => simp [emailErrors, hasErrorOn]

lemma hasErrorOn_emailErrors_other (v : JsValue) (q : String)
    (hq : ¬("email" = q)) : hasErrorOn (emailErrors v) q = false := by
  cases v with
  | str s => by_cases h : isEmailStr s <;> simp [emailErrors, h, hasErrorOn, hq]
  | num n => simp [emailErrors, hasErrorOn, hq]
  | undef => simp [emailErrors, hasErrorOn, hq]

lemma hasErrorOn_fullNameErrors (v : JsValue) :
    hasErrorOn (fullNameErrors v) "full_name" = false ↔ ∃ s, v = .str s := by
  cases v <;> simp [fullNameErrors, hasErrorOn]

lemma hasErrorOn_fullNameErrors_other (v : JsValue) (q : String)
    (hq : ¬("full_name" = q)) : hasErrorOn (fullNameErrors v) q = false := by
  cases v <;> simp [fullNameErrors, hasErrorOn, hq]

lemma hasErrorOn_passwordErrors (v : JsValue) :
    hasErrorOn (passwordErrors v) "password" = false ↔
      ∃ s, v = .str s ∧ 6 ≤ s.length := by
  cases v with
  | str s => by_cases h : 6 ≤ s.length <;> simp [passwordErrors, h, hasErrorOn]
  | num n => simp [passwordErrors, hasErrorOn]
  | undef => simp [passwordErrors, hasErrorOn]

lemma hasErrorOn_passwordErrors_other (v : JsValue) (q : String)
    (hq : ¬("password" = q)) : hasErrorOn (passwordErrors v) q = false := by
  cases v with
  | str s => by_cases h : 6 ≤ s.length <;> simp [passwordErrors, h, hasErrorOn, hq]
  | num n => simp [passwordErrors, hasErrorOn, hq]
  | undef => simp [passwordErrors, hasErrorOn, hq]

lemma hasErrorOn_phoneErrors (v : JsValue) :
    hasErrorOn (phoneErrors v) "phone" = false ↔
      v = .undef ∨ ∃ s, v = .str s := by
  cases v <;> simp [phoneErrors, hasErrorOn]

lemma hasErrorOn_phoneErrors_other (v : JsValue) (q : String)
    (hq : ¬("phone" = q)) : hasErrorOn (phoneErrors v) q = false := by
  cases v <;> simp [phoneErrors, hasErrorOn, hq]

/-- C9: registration-input validation accepts the password exactly
when it is a string of length at least 6 (shorter or missing fails on
the password field); the email must be a well-formed email, the full
name a string, and the phone optional but a string when present; and
on the boundary, a 6-character password passes while a 5-character
one fails with exactly a minLength failure on the password field. -/
theorem registerDto_validation (dto : RegisterDtoInput) :
    (hasErrorOn (validateRegisterDto dto) "password" = false ↔
      ∃ s, dto.password = .str s ∧ 6 ≤ s.length) ∧
    (hasErrorOn (validateRegisterDto dto) "email" = false ↔
      ∃ s, dto.email = .str s ∧ isEmailStr s = true) ∧
    (hasErrorOn (validateRegisterDto dto) "full_name" = false ↔
      ∃ s, dto.full_name = .str s) ∧
    (hasErrorOn (validateRegisterDto dto) "phone" = false ↔
      dto.phone = .undef ∨ ∃ s, dto.phone = .str s) ∧
    validateRegisterDto
      ⟨.str "test@example.com", .str "Test User", .str "123456", .undef⟩ = [] ∧
    validateRegisterDto
      ⟨.str "test@example.com", .str "Test User", .str "12345", .undef⟩ =
      [⟨"password", "minLength"⟩] := by
  refine ⟨?_, ?_, ?_, ?_, ?_, ?_⟩
  · rw [validateRegisterDto, hasErrorOn_append, hasErrorOn_append,
      hasErrorOn_append,
      hasErrorOn_emailErrors_other _ _ (by decide),
      hasErrorOn_fullNameErrors_other _ _ (by decide),
      hasErrorOn_phoneErrors_other _ _ (by decide)]
    simpa using hasErrorOn_passwordErrors dto.password
  · rw [validateRegisterDto, hasErrorOn_append, hasErrorOn_append,
      hasErrorOn_append,
      hasErrorOn_fullNameErrors_other _ _ (by decide),
      hasErrorOn_passwordErrors_other _ _ (by decide),
      hasErrorOn_phoneErrors_other _ _ (by decide)]
    simpa using hasErrorOn_emailErrors dto.email
  · rw [validateRegisterDto, hasErrorOn_append, hasErrorOn_append,
      hasErrorOn_append,
      hasErrorOn_emailErrors_other _ _ (by decide),
      hasErrorOn_passwordErrors_other _ _ (by decide),
      hasErrorOn_phoneErrors_other _ _ (by decide)]
    simpa using hasErrorOn_fullNameErrors dto.full_name
  · rw [validateRegisterDto, hasErrorOn_append, hasErrorOn_append,
      hasErrorOn_append,
      hasErrorOn_emailErrors_other _ _ (by decide),
      hasErrorOn_fullNameErrors_other _ _ (by decide),
      hasErrorOn_passwordErrors_other _ _ (by decide)]
    simpa using hasErrorOn_phoneErrors dto.phone
  · decide
  · decide

/-- C10: the local login strategy maps every error raised by the auth
service's credential validation — of any error type whatsoever — to
the single UnauthorizedException of the source, and on success it
returns the validated account unchanged. -/
theorem localStrategy_validate_collapses {ε : Type}
    (authValidateUser : String → String → Except ε User)
    (email password : String) :
    (∀ e, authValidateUser email password = .error e →
      LocalStrategy.validate authValidateUser email password =
        .error (.unauthorizedException "Invalid credientials")) ∧
    (∀ u, authValidateUser email password = .ok u →
      LocalStrategy.validate authValidateUser email password = .ok u) := by
  constructor
  · intro e he
    simp [LocalStrategy.validate, he]
  · intro u hu
    simp [LocalStrategy.validate, hu]

/-- C10 witness: the theorem instantiated at a service raising a
plain string error and at a service returning an account. -/
theorem localStrategy_validate_collapses_witness :
    LocalStrategy.validate
      (fun _ _ => (.error "Some error" : Except String User))
      "test@example.com" "password123" =
      .error (.unauthorizedException "Invalid credientials") ∧
    LocalStrategy.validate
      (fun _ _ => (.ok sampleUser : Except String User))
      "test@example.com" "password123" = .ok sampleUser :=
  ⟨(localStrategy_validate_collapses
      (fun _ _ => (.error "Some error" : Except String User))
      "test@example.com" "password123").1 "Some error" rfl,
   (localStrategy_validate_collapses
      (fun _ _ => (.ok sampleUser : Except String User))
      "test@example.com" "password123").2 sampleUser rfl⟩

end PsychAgg
